import Mathlib

/-
Shallow embedding of src/Main.py (Flask service "Agentic AI using only an LLM").

Modelling conventions:
* JSON values are the inductive `Json`; numbers are rationals (Python floats
  and ints are abstracted by `Rat`; none of the verified properties depend on
  floating-point rounding).  `Json.num`, `Json.str`, … mirror the Python value
  space; Python `None` obtained from `dict.get` of a missing key is `Option.none`.
* The external model (openai.ChatCompletion) is an oracle `Env.oracle`
  consulted once per `call_llm` invocation, in invocation order.  An outcome
  `ModelOut.exn msg` models `call_llm` raising (missing key, network, quota);
  `ModelOut.text p` models a returned completion whose `json.loads` result is
  abstracted by `p : Except String Json` (`.error msg` = JSONDecodeError with
  message `msg`; the raw completion text itself is never used except through
  `json.loads`, so it is not carried separately).
* `uuid.uuid4()` draws from the injective-by-assumption supply `Env.uuids`,
  in order; `datetime.utcnow().isoformat()` is the constant `Env.now`.
* The sqlite tables `policies` and `conversations` are the lists in `World`,
  appended in insertion order; `fetchone` of an unordered SELECT is modelled
  as the first match in insertion order (rowid order).  SQL NULL (a Python
  `None` binding, i.e. a missing key or JSON null) never compares equal, and
  values of different storage classes compare unequal (`sqlEq`).
* Request bodies are the JSON objects the endpoints are documented to accept,
  given as association lists (objects produced by `json.loads` have distinct
  keys).  An uncaught Python exception inside a handler (e.g. `AttributeError`
  from calling `.get` on a non-dict) is `HttpResponse.crash`; Flask would turn
  it into a generic 500, distinct from the handler-built `jsonify(...), 500`
  responses which are `HttpResponse.serverError`.
* Where Python interpolates a non-string value into a string (f-strings,
  `+` on the retry message) we use `pyStr`; the repr of containers is
  abstracted by `Json.dumps` (single-vs-double quotes is irrelevant to every
  property proved below), and `toString : Rat → String` abstracts the Python
  number formatting.
-/

inductive Json where
  | null : Json
  | bool (b : Bool) : Json
  | num (q : Rat) : Json
  | str (s : String) : Json
  | arr (xs : List Json) : Json
  | obj (kvs : List (String × Json)) : Json

/-- Python truthiness of a JSON-decoded value (`bool(x)`). -/
def Json.truthy : Json → Bool
  | .null => false
  | .bool b => b
  | .num q => decide (q ≠ 0)
  | .str s => !s.isEmpty
  | .arr xs => !xs.isEmpty
  | .obj kvs => !kvs.isEmpty

/-- Python `d.get(k)` on a JSON object: `none` models Python `None` (missing key). -/
def pyGet (kvs : List (String × Json)) (k : String) : Option Json :=
  (kvs.find? (fun p => p.1 == k)).map (fun p => p.2)

/-- Python `d.get(k, default)`. -/
def pyGetD (kvs : List (String × Json)) (k : String) (d : Json) : Json :=
  (pyGet kvs k).getD d

/-- Truthiness of a Python value that may be `None`. -/
def optTruthy : Option Json → Bool
  | none => false
  | some j => j.truthy

/-- Python `a or b` where `a` came from `dict.get` (left operand if truthy, else right). -/
def pyOr (a : Option Json) (b : Json) : Json :=
  match a with
  | some v => if v.truthy then v else b
  | none => b

/-- A Python value (possibly `None`) as it is serialized back to JSON by jsonify. -/
def optToJson : Option Json → Json
  | none => Json.null
  | some j => j

/-- Python `x == "lit"` for a value possibly `None` (non-strings are never equal to a str). -/
def isStrEq (a : Option Json) (s : String) : Bool :=
  match a with
  | some (.str t) => t == s
  | _ => false

/-- Python dict item assignment `d[k] = v` on an association list (replace or append). -/
def setKey : List (String × Json) → String → Json → List (String × Json)
  | [], k, v => [(k, v)]
  | (k1, v1) :: rest, k, v =>
      if k1 == k then (k, v) :: rest else (k1, v1) :: setKey rest k v

/-- Python dict item assignment on a `Json.obj` (assignment targets are dicts in all modelled paths). -/
def Json.set : Json → String → Json → Json
  | .obj kvs, k, v => .obj (setKey kvs k v)
  | j, _, _ => j

/-- Key lookup on a `Json` value known to be an object (`none` on non-objects). -/
def pyGetJ : Json → String → Option Json
  | .obj kvs, k => pyGet kvs k
  | _, _ => none

mutual

/-- Abstraction of Python `json.dumps` (default separators; string escaping elided). -/
def Json.dumps : Json → String
  | .null => "null"
  | .bool true => "true"
  | .bool false => "false"
  | .num q => toString q
  | .str s => "\x22" ++ s ++ "\x22"
  | .arr xs => "[" ++ Json.dumpsList xs ++ "]"
  | .obj kvs => "\x7b" ++ Json.dumpsObj kvs ++ "\x7d"

def Json.dumpsList : List Json → String
  | [] => ""
  | [x] => Json.dumps x
  | x :: y :: xs => Json.dumps x ++ ", " ++ Json.dumpsList (y :: xs)

def Json.dumpsObj : List (String × Json) → String
  | [] => ""
  | [(k, v)] => "\x22" ++ k ++ "\x22: " ++ Json.dumps v
  | (k, v) :: p :: kvs =>
      "\x22" ++ k ++ "\x22: " ++ Json.dumps v ++ ", " ++ Json.dumpsObj (p :: kvs)

end

/-- Abstraction of Python `str(x)` as used in f-string interpolation. -/
def pyStr : Json → String
  | .null => "None"
  | .bool true => "True"
  | .bool false => "False"
  | .num q => toString q
  | .str s => s
  | j => Json.dumps j

/-- SQL-level equality used by `WHERE policy_number = ?`: NULL never matches and
values of different storage classes are unequal. -/
def sqlEq (a b : Option Json) : Bool :=
  match a, b with
  | some (.str x), some (.str y) => x == y
  | some (.num x), some (.num y) => decide (x = y)
  | some (.bool x), some (.bool y) => x == y
  | _, _ => false

/-- The SQL column value bound for a Python value: JSON null becomes Python `None`,
which binds as SQL NULL, as does a missing key. -/
def colOf : Option Json → Option Json
  | some .null => none
  | x => x

/-- Outcome of one `call_llm` invocation: either the call raised, or it returned a
completion abstracted by the result of `json.loads` on it. -/
inductive ModelOut where
  | exn (msg : String) : ModelOut
  | text (parse : Except String Json) : ModelOut

/-- The combined `call_llm(...)` + `json.loads(...)` result of one attempt: the
exception message if either step raised, else the decoded JSON. -/
def modelJson : ModelOut → Except String Json
  | .exn m => .error m
  | .text p => p

/-- Whether an attempt raised (in `call_llm` or in `json.loads`). -/
def ModelOut.isFailure (o : ModelOut) : Bool :=
  match modelJson o with
  | .error _ => true
  | .ok _ => false

/-- Record of one outbound model invocation (temperature is 0.0 at every call site). -/
structure LLMCall where
  system : String
  user : Json
  maxTokens : Nat

/-- Ambient nondeterminism: the model oracle (by invocation index), the uuid4
supply (by draw index) and the clock. -/
structure Env where
  oracle : Nat → ModelOut
  uuids : Nat → String
  now : String

/-- One row of the sqlite `policies` table. -/
structure PolicyRow where
  id : String
  policy_number : Option Json
  customer_name : Option Json
  customer_contact : Option Json
  policy_type : Option Json
  insurer_name : Option Json
  expiry_date : Option Json
  premium_amount : Option Json
  no_claim_bonus_percent : Option Json
  eligible_upsells : String
  raw_parse : Json
  created_at : String

/-- One row of the sqlite `conversations` table. -/
structure ConvRow where
  id : String
  session_id : Json
  role : String
  message : Json
  created_at : String

/-- Mutable process state: the two tables, the uuid and invocation counters, and
the trace of outbound model calls made so far. -/
structure World where
  policies : List PolicyRow
  conversations : List ConvRow
  nextUuid : Nat
  nextCall : Nat
  calls : List LLMCall

/-- One invocation of `call_llm`: consults the oracle at the current invocation
index and records the call. -/
def call_llm (env : Env) (w : World) (system : String) (user : Json) (maxTokens : Nat) :
    ModelOut × World :=
  (env.oracle w.nextCall,
   { w with nextCall := w.nextCall + 1, calls := w.calls ++ [⟨system, user, maxTokens⟩] })

/-- The row INSERTed by `save_policy` for the parsed object `parsed` under id `pid`. -/
def policy_row (env : Env) (pid : String) (parsed : List (String × Json)) : PolicyRow :=
  { id := pid
    policy_number := colOf (pyGet parsed "policy_number")
    customer_name := colOf (pyGet parsed "customer_name")
    customer_contact := colOf (pyGet parsed "customer_contact")
    policy_type := colOf (pyGet parsed "policy_type")
    insurer_name := colOf (pyGet parsed "insurer_name")
    expiry_date := colOf (pyGet parsed "expiry_date")
    premium_amount := colOf (pyGet parsed "premium_amount")
    no_claim_bonus_percent := colOf (pyGet parsed "no_claim_bonus_percent")
    eligible_upsells := Json.dumps (pyOr (pyGet parsed "eligible_upsell") (Json.arr []))
    raw_parse := Json.obj parsed
    created_at := env.now }

/-- `save_policy(parsed_obj)`: INSERT a fresh row under a new uuid and return the id. -/
def save_policy (env : Env) (w : World) (parsed : List (String × Json)) : String × World :=
  let pid := env.uuids w.nextUuid
  (pid, { w with policies := w.policies ++ [policy_row env pid parsed],
                 nextUuid := w.nextUuid + 1 })

/-- `get_policy_by_number(policy_number)`: first row whose column matches, decoded
from its stored `raw_parse` (storing then loading `json.dumps` is the identity
on our `Json`).  Parameterized by the `policies` table it reads. -/
def get_policy_by_number (ps : List PolicyRow) (policy_number : Json) : Option Json :=
  (ps.find? (fun r => sqlEq r.policy_number (colOf (some policy_number)))).map
    (fun r => r.raw_parse)

/-- `log_conversation(session_id, role, message)`: INSERT one conversation row. -/
def log_conversation (env : Env) (w : World) (session_id : Json) (role : String)
    (message : Json) : World :=
  let cid := env.uuids w.nextUuid
  { w with
      conversations := w.conversations ++ [⟨cid, session_id, role, message, env.now⟩]
      nextUuid := w.nextUuid + 1 }

def SYSTEM_PARSER_PROMPT : String :=
  "\nYou are a professional insurance document parser. Input is either raw text extracted from a policy PDF or a description. Output MUST be a strict JSON object only (no explanatory text) with these fields:\n- policy_number (string or null)\n- policy_type (string or null)\n- insurer_name (string or null)\n- customer_name (string or null)\n- customer_contact (string or null, E.164 if possible)\n- expiry_date (YYYY-MM-DD or null)\n- premium_amount (number or null)\n- no_claim_bonus_percent (number between 0-100 or null)\n- asset_details (object with keys: make, model, year, registration_number - any can be null)\n- coverage_summary (array of strings)\n- eligible_upsell (array of strings)\n- last_payment_date (YYYY-MM-DD or null)\n\nIf value is not present in the text, set it to null or an empty array/object as appropriate.\nMake a best-effort extraction. STRICT JSON output and nothing else.\n"

def SYSTEM_NLU_PROMPT : String :=
  "\nYou are a compact NLU assistant. Given user text, return a JSON with:\n- intent: one of [renew_now, renew_later_date, needs_discount, needs_human_agent, modify_policy, interested_in_upsell, switching_to_competitor, not_interested, callback_request, out_of_scope]\n- confidence: 0.0 - 1.0\n- entities: dict of any extracted slots (policy_number, followup_date, preferred_channel, language, upsell_choice, payment_method, contact)\nReturn only JSON, nothing else.\n"

def SYSTEM_SENTIMENT_PROMPT : String :=
  "\nYou are a sentiment classifier. Input: a short user utterance. Return JSON:\n- sentiment: one of [positive, neutral, negative]\n- score: 0.0 - 1.0 (confidence)\nReturn only JSON.\n"

def SYSTEM_AGENT_POLICY : String :=
  "\nYou are an Insurance Renewal & Upsell virtual agent. Behavior rules:\n1. Always confirm customer identity (customer_name and policy_number) if not confirmed.\n2. If expiry_date within 30 days, proactively offer renewal. Show premium and NCB.\n3. Check eligible_upsell and propose simple, short add-ons if sentiment positive and user willing.\n4. If user requests payment, call payment initiation (return payment_link).\n5. Keep messages short, empathetic, and in the user\x27s preferred language (English/Hindi). If language not provided, default English.\n6. Respect opt-out and DND: if user says \x27stop\x27 or \x27unsubscribe\x27, log opt-out and confirm.\n7. Output must be a JSON object with keys:\n   - reply (string): text to send to the user\n   - language (string): \x27en\x27 or \x27hi\x27\n   - action (string or null): one of [ask_for_missing_info, offer_renewal, initiate_payment, upsell_offer, schedule_callback, escalate_human, none]\n   - action_payload (object or null): additional instructions (e.g., payment_link, amount, followup_date)\nReturn only JSON.\n"

/-- HTTP outcome of a handler.  `crash` is an uncaught Python exception (Flask
would render a generic 500 distinct from the error JSON built by the handler). -/
inductive HttpResponse where
  | ok (body : Json) : HttpResponse
  | clientError (body : Json) : HttpResponse
  | serverError (body : Json) : HttpResponse
  | crash (msg : String) : HttpResponse

def HttpResponse.isOk : HttpResponse → Bool
  | .ok _ => true
  | _ => false

def HttpResponse.isClientError : HttpResponse → Bool
  | .clientError _ => true
  | _ => false

def HttpResponse.isServerError : HttpResponse → Bool
  | .serverError _ => true
  | _ => false

def HttpResponse.isCrash : HttpResponse → Bool
  | .crash _ => true
  | _ => false

/-- Tail of `parse_policy` after a successful `json.loads`: `save_policy` then
attach the generated id.  A non-dict decoded value raises `AttributeError`
inside `save_policy` (`parsed_obj.get`), uncaught. -/
def parse_store (env : Env) (w : World) (parsed : Json) : HttpResponse × World :=
  match parsed with
  | .obj kvs =>
      let r := save_policy env w kvs
      (.ok ((Json.obj kvs).set "_db_id" (.str r.1)), r.2)
  | _ => (.crash "AttributeError: get", w)

/-- The line `text = body.get("text") or body.get("file_url") or ""` of `parse_policy`. -/
def parse_text (body : List (String × Json)) : Json :=
  pyOr (pyGet body "text") (pyOr (pyGet body "file_url") (Json.str ""))

/-- The amended user message of the corrective retry in `parse_policy`. -/
def retry_user_msg (e : String) (text : Json) : String :=
  "Please re-output ONLY the JSON object. Previous attempt error: " ++ e
    ++ "\n\nOriginal text:\n" ++ pyStr text

/-- Handler for POST /v1/policy/parse. -/
def parse_policy (env : Env) (body : List (String × Json)) (w : World) :
    HttpResponse × World :=
  let text := parse_text body
  if !text.truthy then
    (.clientError (.obj [("error",
       .str "Provide \x27text\x27 (extracted PDF text) or \x27file_url\x27 (text).")]), w)
  else
    let r1 := call_llm env w SYSTEM_PARSER_PROMPT text 600
    match modelJson r1.1 with
    | .ok parsed => parse_store env r1.2 parsed
    | .error e =>
        let retry_user : Json := .str (retry_user_msg e text)
        let r2 := call_llm env r1.2 SYSTEM_PARSER_PROMPT retry_user 600
        match modelJson r2.1 with
        | .ok parsed => parse_store env r2.2 parsed
        | .error e2 =>
            (.serverError (.obj [("error", .str "LLM parsing failed"),
                                 ("details", .str e2)]), r2.2)

/-- Handler for POST /v1/nlp/intent. -/
def nlu_intent (env : Env) (body : List (String × Json)) (w : World) :
    HttpResponse × World :=
  let text := pyGetD body "text" (.str "")
  if !text.truthy then (.clientError (.obj [("error", .str "text required")]), w)
  else
    let r := call_llm env w SYSTEM_NLU_PROMPT text 200
    match modelJson r.1 with
    | .ok parsed => (.ok parsed, r.2)
    | .error e =>
        (.serverError (.obj [("error", .str "NLU LLM error"), ("details", .str e)]), r.2)

/-- Handler for POST /v1/nlp/sentiment. -/
def nlu_sentiment (env : Env) (body : List (String × Json)) (w : World) :
    HttpResponse × World :=
  let text := pyGetD body "text" (.str "")
  if !text.truthy then (.clientError (.obj [("error", .str "text required")]), w)
  else
    let r := call_llm env w SYSTEM_SENTIMENT_PROMPT text 100
    match modelJson r.1 with
    | .ok parsed => (.ok parsed, r.2)
    | .error e =>
        (.serverError (.obj [("error", .str "Sentiment LLM error"), ("details", .str e)]),
         r.2)

/-- Default NLU result substituted when the intent sub-call raises or fails to parse. -/
def nluDefault : Json :=
  .obj [("intent", .str "out_of_scope"), ("confidence", .num 0.5), ("entities", .obj [])]

/-- Default sentiment result substituted when the sentiment sub-call fails. -/
def sentDefault : Json :=
  .obj [("sentiment", .str "neutral"), ("score", .num 0.5)]

def resolveNlu (o : ModelOut) : Json :=
  match modelJson o with
  | .ok j => j
  | .error _ => nluDefault

def resolveSent (o : ModelOut) : Json :=
  match modelJson o with
  | .ok j => j
  | .error _ => sentDefault

/-- The fixed fallback agent decision built when the agent-decision sub-call fails. -/
def agentFallback (language : Json) (e : String) : Json :=
  .obj [("reply",
          .str "I\x27m sorry, I\x27m having trouble right now. I\x27ll escalate to a human agent."),
        ("language", language),
        ("action", .str "escalate_human"),
        ("action_payload", .obj [("reason", .str e)])]

def resolveAgent (language : Json) (o : ModelOut) : Json :=
  match modelJson o with
  | .ok j => j
  | .error e => agentFallback language e

/-- The f-string `agent_user_prompt` of `agent_message`. -/
def agent_user_prompt (user_text : Json) (policy : Option Json) (nlu sent language : Json) :
    String :=
  let policy_context :=
    match policy with
    | some p => if p.truthy then Json.dumps p else "\x7b\x7d"
    | none => "\x7b\x7d"
  "\nUser message: " ++ pyStr user_text
    ++ "\nPolicy context: " ++ policy_context
    ++ "\nNLU: " ++ Json.dumps nlu
    ++ "\nSentiment: " ++ Json.dumps sent
    ++ "\nPreferred language: " ++ pyStr language
    ++ "\n\nFollowing the agent behavior rules, produce the agent response JSON exactly with keys:\nreply, language (\x27en\x27 or \x27hi\x27), action (ask_for_missing_info | offer_renewal | initiate_payment | upsell_offer | schedule_callback | escalate_human | none), action_payload (object|null).\n\nKeep reply short and polite. If asking for missing info, be specific about which field is missing (e.g., policy_number or customer_contact). If offering renewal, include premium and expiry_date. If initiating payment, include payment link.\n    "

/-- The line `amount = payload.get("amount") or (policy.get("premium_amount") if
policy else None)`: `.error` is an uncaught `AttributeError` (`.get` on a
truthy non-dict policy). -/
def payment_amount (policy : Option Json) (pkvs : List (String × Json)) :
    Except String (Option Json) :=
  let amountLeft := pyGet pkvs "amount"
  if optTruthy amountLeft then .ok amountLeft
  else
    match policy with
    | some p =>
        if p.truthy then
          match p with
          | .obj pk => .ok (pyGet pk "premium_amount")
          | _ => .error "AttributeError: get"
        else .ok none
    | none => .ok none

/-- The mock-payment post-processing block of `agent_message` (the code after the
agent decision is resolved).  `.error` is an uncaught Python `AttributeError`
(`.get` on a non-dict decision, payload or policy). -/
def payment_post (env : Env) (w : World) (policy : Option Json) (agent_json : Json) :
    Except String (Json × World) :=
  match agent_json with
  | .obj kvs =>
      if isStrEq (pyGet kvs "action") "initiate_payment" then
        match pyOr (pyGet kvs "action_payload") (.obj []) with
        | .obj pkvs =>
            match payment_amount policy pkvs with
            | .error m => .error m
            | .ok amount =>
                let payment_id := "pay_" ++ (env.uuids w.nextUuid).take 8
                let payment_link := "https://mockpay.example/pay/" ++ payment_id
                .ok ((Json.obj kvs).set "action_payload"
                       (.obj [("payment_id", .str payment_id),
                              ("payment_link", .str payment_link),
                              ("amount", optToJson amount)]),
                     { w with nextUuid := w.nextUuid + 1 })
        | _ => .error "AttributeError: get"
      else .ok (Json.obj kvs, w)
  | _ => .error "AttributeError: get"

/-- The lines `policy = None; if policy_number: policy = get_policy_by_number(policy_number)`. -/
def policy_ctx (pn : Option Json) (ps : List PolicyRow) : Option Json :=
  match pn with
  | some v => if v.truthy then get_policy_by_number ps v else none
  | none => none

/-- Body of `agent_message` after the empty-message validation. -/
def agent_turn (env : Env) (w : World) (session_id language user_text : Json)
    (policy_number : Option Json) : HttpResponse × World :=
  let w1 := log_conversation env w session_id "user" user_text
  let policy : Option Json := policy_ctx policy_number w1.policies
  let r1 := call_llm env w1 SYSTEM_NLU_PROMPT user_text 200
  let nlu := resolveNlu r1.1
  let r2 := call_llm env r1.2 SYSTEM_SENTIMENT_PROMPT user_text 80
  let sent := resolveSent r2.1
  let prompt := agent_user_prompt user_text policy nlu sent language
  let r3 := call_llm env r2.2 SYSTEM_AGENT_POLICY (.str prompt) 400
  let agent_json := resolveAgent language r3.1
  match payment_post env r3.2 policy agent_json with
  | .error m => (.crash m, r3.2)
  | .ok aw =>
      let w6 := log_conversation env aw.2 session_id "agent"
        (match aw.1 with | .obj kvs => pyGetD kvs "reply" (.str "") | j => j)
      (.ok aw.1, w6)

/-- The line `session_id = body.get("session_id") or str(uuid.uuid4())`:
a uuid is drawn exactly when the supplied session id is falsy. -/
def session_init (env : Env) (w : World) (sid : Option Json) : Json × World :=
  match sid with
  | some v => if v.truthy then (v, w) else
      (.str (env.uuids w.nextUuid), { w with nextUuid := w.nextUuid + 1 })
  | none => (.str (env.uuids w.nextUuid), { w with nextUuid := w.nextUuid + 1 })

/-- Handler for POST /v1/agent/message.  Note that `str(uuid.uuid4())` for a
missing `session_id` is drawn before the empty-message check, as in the source. -/
def agent_message (env : Env) (body : List (String × Json)) (w : World) :
    HttpResponse × World :=
  let sw : Json × World := session_init env w (pyGet body "session_id")
  let policy_number := pyGet body "policy_number"
  let language := pyGetD body "language" (.str "en")
  let user_text := pyGetD body "message" (.str "")
  if !user_text.truthy then
    (.clientError (.obj [("error", .str "message required")]), sw.2)
  else
    agent_turn env sw.2 sw.1 language user_text policy_number

/-- Handler for POST /v1/payments/initiate. -/
def payments_initiate (env : Env) (body : List (String × Json)) (w : World) :
    HttpResponse × World :=
  let amount := pyGet body "amount"
  if !optTruthy amount then
    (.clientError (.obj [("error", .str "amount required")]), w)
  else
    let payment_id := "pay_" ++ (env.uuids w.nextUuid).take 8
    let link := "https://mockpay.example/pay/" ++ payment_id
    (.ok (.obj [("id", .str payment_id), ("payment_link", .str link)]),
     { w with nextUuid := w.nextUuid + 1 })

/-- Handler for POST /v1/notify/sms. -/
def notify_sms (env : Env) (body : List (String × Json)) (w : World) :
    HttpResponse × World :=
  let toV := pyGet body "to"
  let text := pyGet body "text"
  if !optTruthy toV || !optTruthy text then
    (.clientError (.obj [("error", .str "to and text required")]), w)
  else
    (.ok (.obj [("status", .str "sent"),
                ("id", .str ("msg_" ++ (env.uuids w.nextUuid).take 8))]),
     { w with nextUuid := w.nextUuid + 1 })

/-- Handler for GET /health. -/
def health (env : Env) (w : World) : HttpResponse × World :=
  (.ok (.obj [("status", .str "ok"), ("time", .str env.now)]), w)

/-- The seven-value action enum of SYSTEM_AGENT_POLICY. -/
def actionEnum : List String :=
  ["ask_for_missing_info", "offer_renewal", "initiate_payment", "upsell_offer",
   "schedule_callback", "escalate_human", "none"]

def Json.isObj : Json → Bool
  | .obj _ => true
  | _ => false

/-- A policy context value on which `policy.get("premium_amount")` cannot raise:
either absent, falsy (skipped by `if policy`), or a dict. -/
def policySafe : Option Json → Bool
  | none => true
  | some j => !j.truthy || j.isObj

/-- The premium fallback `policy.get("premium_amount") if policy else None`
for a crash-free policy context. -/
def premium_fallback : Option Json → Option Json
  | some (Json.obj pk) => if (Json.obj pk).truthy then pyGet pk "premium_amount" else none
  | _ => none

/-- Body of a 200 response (`Json.null` on non-200, unused that way below). -/
def okBody : HttpResponse → Json
  | .ok b => b
  | _ => .null

/-- The two tables of `w'` extend those of `w` by appended rows only. -/
def DbExt (w w' : World) : Prop :=
  (∃ s, w'.policies = w.policies ++ s) ∧ (∃ s, w'.conversations = w.conversations ++ s)

/-- Initial empty state. -/
def w0 : World := ⟨[], [], 0, 0, []⟩

/-- A concrete uuid4 supply for witnesses. -/
def uuidsW : Nat → String := fun n => "u" ++ toString n

/-- Oracle that always returns the same syntactically valid JSON object with an
out-of-enum action and no reply key. -/
def envDance : Env :=
  ⟨fun _ => .text (.ok (.obj [("action", .str "dance")])), uuidsW, "t"⟩

/-- Oracle whose agent-decision attempt (invocation 2) raises. -/
def envAgentFail : Env :=
  ⟨fun n => if n == 2 then .exn "boom" else .text (.ok (.obj [])), uuidsW, "t"⟩

/-- Oracle whose agent-decision attempt returns valid JSON that is not an object. -/
def envNum : Env :=
  ⟨fun n => if n == 2 then .text (.ok (.num 5)) else .text (.ok (.obj [])), uuidsW, "t"⟩

/-- Oracle whose agent-decision attempt returns unparseable text. -/
def envAgentFail2 : Env :=
  ⟨fun n => if n == 2 then .text (.error "nope") else .text (.ok (.obj [])), uuidsW, "t"⟩

/-- Oracle whose first invocation returns unparseable text and later ones parse. -/
def envFail1 : Env :=
  ⟨fun n => if n == 0 then .text (.error "bad") else .text (.ok (.obj [])), uuidsW, "t"⟩

/-- A stored policy row for policy POL1 with premium 500. -/
def rowP1 : PolicyRow :=
  { id := "pid0"
    policy_number := some (.str "POL1")
    customer_name := none
    customer_contact := none
    policy_type := none
    insurer_name := none
    expiry_date := none
    premium_amount := some (.num 500)
    no_claim_bonus_percent := none
    eligible_upsells := "[]"
    raw_parse := .obj [("policy_number", .str "POL1"), ("premium_amount", .num 500)]
    created_at := "t" }

/-- State holding exactly the POL1 policy. -/
def wP1 : World := ⟨[rowP1], [], 0, 0, []⟩

/-- Oracle whose agent decision initiates payment with a falsy amount 0. -/
def envPay0 : Env :=
  ⟨fun n => if n == 2 then
      .text (.ok (.obj [("action", .str "initiate_payment"),
                        ("action_payload", .obj [("amount", .num 0)])]))
    else .text (.ok (.obj [])), uuidsW, "t"⟩

/-- Oracle whose agent decision initiates payment with a truthy amount 750. -/
def envPay750 : Env :=
  ⟨fun n => if n == 2 then
      .text (.ok (.obj [("action", .str "initiate_payment"),
                        ("action_payload", .obj [("amount", .num 750)])]))
    else .text (.ok (.obj [])), uuidsW, "t"⟩

/-- Oracle that always returns the same parsed policy object. -/
def envParseOk : Env :=
  ⟨fun _ => .text (.ok (.obj [("policy_number", .str "POL2"), ("premium_amount", .num 900)])),
   uuidsW, "t"⟩

/-- Oracle that returns a parsed policy object with policy number POL9. -/
def envParse10 : Env :=
  ⟨fun _ => .text (.ok (.obj [("policy_number", .str "POL9"), ("customer_name", .str "A")])),
   uuidsW, "t"⟩

/-- Oracle whose intent and sentiment attempts both raise and whose agent attempt parses. -/
def envC6 : Env :=
  ⟨fun n => if n ≤ 1 then .exn "down" else .text (.ok (.obj [("reply", .str "hello"), ("action", .str "none")])),
   uuidsW, "t"⟩

/-- Oracle never consulted; used for the stub endpoints. -/
def envSimple : Env := ⟨fun _ => .exn "unused", uuidsW, "t"⟩

/-! Helper lemmas. -/

theorem take_app_len {α : Type} (l s : List α) : (l ++ s).take l.length = l := by
  induction l with
  | nil => rfl
  | cons a t ih => simp [ih]

theorem drop_app_len {α : Type} (l s : List α) : (l ++ s).drop l.length = s := by
  induction l with
  | nil => rfl
  | cons a t ih => simp [ih]

theorem pyGet_setKey (kvs : List (String × Json)) (k : String) (v : Json) :
    pyGet (setKey kvs k v) k = some v := by
  induction kvs with
  | nil => simp [setKey, pyGet]
  | cons p rest ih =>
      by_cases h : p.1 == k
      · cases p; simp_all [setKey, pyGet]
      · cases p; simp_all [setKey, pyGet, List.find?]

theorem find_app_of_none {α : Type} (p : α → Bool) (l₁ l₂ : List α)
    (h : ∀ x ∈ l₁, p x = false) : (l₁ ++ l₂).find? p = l₂.find? p := by
  induction l₁ with
  | nil => rfl
  | cons a t ih =>
      have ha : p a = false := h a (by simp)
      simp only [List.cons_append, List.find?, ha]
      exact ih (fun x hx => h x (by simp [hx]))

theorem parse_store_world (env : Env) (w : World) (p : Json) :
    ((parse_store env w p).2).calls = w.calls
      ∧ ((parse_store env w p).2).nextCall = w.nextCall
      ∧ ((parse_store env w p).2).conversations = w.conversations := by
  cases p <;> exact ⟨rfl, rfl, rfl⟩

/-! Claim C3. -/

/-- Claim C3 counterexample: the intent-classification invocation of
POST /v1/nlp/intent errors out (HTTP 500) after a single parse failure having
made exactly one model invocation — no corrective retry. -/
theorem C3_counterexample :
    (nlu_intent envFail1 [("text", Json.str "hi")] w0).1
        = .serverError (.obj [("error", .str "NLU LLM error"), ("details", .str "bad")])
      ∧ ((nlu_intent envFail1 [("text", Json.str "hi")] w0).2).calls.length = 1 :=
  ⟨rfl, rfl⟩

/-- Claim C3 (amended): only the policy-extraction invocation performs the
corrective retry — on a first JSON-parse failure `parse_policy` re-invokes the
model exactly once with the same system prompt and an amended user message
containing the original payload and the literal parse error; the intent and
sentiment extractions make exactly one invocation each, surfacing an error
(endpoints) or substituting a default (orchestrator) after a single failure. -/
theorem C3_retry_only_policy (env : Env) (body : List (String × Json)) (w : World)
    (e : String) :
    ((parse_text body).truthy = true →
      modelJson (env.oracle w.nextCall) = .error e →
      ((parse_policy env body w).2).calls
        = w.calls ++ [⟨SYSTEM_PARSER_PROMPT, parse_text body, 600⟩,
                      ⟨SYSTEM_PARSER_PROMPT, .str (retry_user_msg e (parse_text body)), 600⟩])
    ∧ ((pyGetD body "text" (Json.str "")).truthy = true →
      ((nlu_intent env body w).2).calls
        = w.calls ++ [⟨SYSTEM_NLU_PROMPT, pyGetD body "text" (Json.str ""), 200⟩])
    ∧ ((pyGetD body "text" (Json.str "")).truthy = true →
      ((nlu_sentiment env body w).2).calls
        = w.calls ++ [⟨SYSTEM_SENTIMENT_PROMPT, pyGetD body "text" (Json.str ""), 100⟩]) := by
  refine ⟨?_, ?_, ?_⟩
  · intro ht hf
    simp only [parse_policy, call_llm, ht, Bool.not_true, Bool.false_eq_true, if_false, hf]
    rcases h2 : modelJson (env.oracle (w.nextCall + 1)) with e2 | p <;>
      simp [h2, (parse_store_world env _ _).1, List.append_assoc]
  · intro ht
    simp only [nlu_intent, call_llm, ht, Bool.not_true, Bool.false_eq_true, if_false]
    rcases h2 : modelJson (env.oracle w.nextCall) with e2 | p <;> simp [h2]
  · intro ht
    simp only [nlu_sentiment, call_llm, ht, Bool.not_true, Bool.false_eq_true, if_false]
    rcases h2 : modelJson (env.oracle w.nextCall) with e2 | p <;> simp [h2]

/-- Claim C3 witness: the amended statement evaluated at a concrete failing
first attempt. -/
theorem C3_witness :
    ((parse_policy envFail1 [("text", Json.str "hi")] w0).2).calls
        = [⟨SYSTEM_PARSER_PROMPT, parse_text [("text", Json.str "hi")], 600⟩,
           ⟨SYSTEM_PARSER_PROMPT,
            .str (retry_user_msg "bad" (parse_text [("text", Json.str "hi")])), 600⟩]
      ∧ ((nlu_intent envFail1 [("text", Json.str "hi")] w0).2).calls
        = [⟨SYSTEM_NLU_PROMPT, pyGetD [("text", Json.str "hi")] "text" (Json.str ""), 200⟩]
      ∧ ((nlu_sentiment envFail1 [("text", Json.str "hi")] w0).2).calls
        = [⟨SYSTEM_SENTIMENT_PROMPT, pyGetD [("text", Json.str "hi")] "text" (Json.str ""), 100⟩] :=
  ⟨(C3_retry_only_policy envFail1 [("text", Json.str "hi")] w0 "bad").1 rfl rfl,
   (C3_retry_only_policy envFail1 [("text", Json.str "hi")] w0 "bad").2.1 rfl,
   (C3_retry_only_policy envFail1 [("text", Json.str "hi")] w0 "bad").2.2 rfl⟩

/-! Claim C7. -/

/-- Claim C7 counterexample: POST /v1/payments/initiate with `amount = 0`
(present and non-null) yields HTTP 400, not a payment record. -/
theorem C7_counterexample :
    (payments_initiate envSimple [("amount", Json.num 0)] w0).1
        = .clientError (.obj [("error", .str "amount required")])
      ∧ pyGet [("amount", Json.num 0)] "amount" = some (Json.num 0)
      ∧ Json.num 0 ≠ Json.null :=
  ⟨rfl, rfl, fun h => Json.noConfusion h⟩

/-- Claim C7 (amended): POST /v1/payments/initiate returns HTTP 400 exactly when
`amount` is absent or falsy (null, 0, empty string, false); for every truthy
amount it returns a generated id prefixed "pay_" and a payment_link containing
that id, and it persists no state (only the uuid counter advances). -/
theorem C7_amount_truthiness (env : Env) (body : List (String × Json)) (w : World) :
    (((payments_initiate env body w).1.isClientError = true)
        ↔ optTruthy (pyGet body "amount") = false)
    ∧ (optTruthy (pyGet body "amount") = true →
        payments_initiate env body w
          = (.ok (.obj [("id", .str ("pay_" ++ (env.uuids w.nextUuid).take 8)),
                        ("payment_link",
                         .str ("https://mockpay.example/pay/"
                               ++ ("pay_" ++ (env.uuids w.nextUuid).take 8)))]),
             { w with nextUuid := w.nextUuid + 1 })) := by
  cases hb : optTruthy (pyGet body "amount") with
  | false => simp [payments_initiate, hb, HttpResponse.isClientError]
  | true => simp [payments_initiate, hb, HttpResponse.isClientError]

/-- Claim C7 witness: a truthy amount 500 yields the generated id and link. -/
theorem C7_witness :
    payments_initiate envSimple [("amount", Json.num 500)] w0
      = (.ok (.obj [("id", .str "pay_u0"),
                    ("payment_link", .str "https://mockpay.example/pay/pay_u0")]),
         { w0 with nextUuid := 1 }) :=
  (C7_amount_truthiness envSimple [("amount", Json.num 500)] w0).2 rfl

/-! Claims C5 and C10. -/

theorem parse_policy_success (env : Env) (body : List (String × Json)) (w : World)
    (kvs : List (String × Json))
    (ht : (parse_text body).truthy = true)
    (h : modelJson (env.oracle w.nextCall) = .ok (Json.obj kvs)) :
    parse_policy env body w
      = (.ok ((Json.obj kvs).set "_db_id" (.str (env.uuids w.nextUuid))),
         { w with policies := w.policies ++ [policy_row env (env.uuids w.nextUuid) kvs],
                  nextUuid := w.nextUuid + 1,
                  nextCall := w.nextCall + 1,
                  calls := w.calls ++ [⟨SYSTEM_PARSER_PROMPT, parse_text body, 600⟩] }) := by
  simp only [parse_policy, call_llm, ht, Bool.not_true, Bool.false_eq_true, if_false, h,
             parse_store, save_policy]

/-- Claim C5: every successful POST /v1/policy/parse inserts a fresh record under
a newly generated identifier with no dedup: two consecutive successful calls
with the same body append two rows and return distinct `_db_id` values (given
that uuid4 does not collide). -/
theorem C5_no_dedup (env : Env) (body : List (String × Json)) (w : World)
    (k1 k2 : List (String × Json))
    (ht : (parse_text body).truthy = true)
    (h1 : modelJson (env.oracle w.nextCall) = .ok (Json.obj k1))
    (h2 : modelJson (env.oracle (w.nextCall + 1)) = .ok (Json.obj k2))
    (hid : env.uuids w.nextUuid ≠ env.uuids (w.nextUuid + 1)) :
    ∃ b1 b2,
      (parse_policy env body w).1 = .ok b1
      ∧ (parse_policy env body ((parse_policy env body w).2)).1 = .ok b2
      ∧ pyGetJ b1 "_db_id" = some (.str (env.uuids w.nextUuid))
      ∧ pyGetJ b2 "_db_id" = some (.str (env.uuids (w.nextUuid + 1)))
      ∧ pyGetJ b1 "_db_id" ≠ pyGetJ b2 "_db_id"
      ∧ ((parse_policy env body ((parse_policy env body w).2)).2).policies
          = w.policies ++ [policy_row env (env.uuids w.nextUuid) k1,
                           policy_row env (env.uuids (w.nextUuid + 1)) k2] := by
  have e1 := parse_policy_success env body w k1 ht h1
  have h2' : modelJson (env.oracle ((parse_policy env body w).2).nextCall)
      = .ok (Json.obj k2) := by rw [e1]; exact h2
  have e2 := parse_policy_success env body ((parse_policy env body w).2) k2 ht h2'
  rw [e1] at e2
  have g1 : pyGetJ ((Json.obj k1).set "_db_id" (.str (env.uuids w.nextUuid))) "_db_id"
      = some (.str (env.uuids w.nextUuid)) := by
    simpa [Json.set, pyGetJ] using pyGet_setKey k1 "_db_id" (.str (env.uuids w.nextUuid))
  have g2 : pyGetJ ((Json.obj k2).set "_db_id" (.str (env.uuids (w.nextUuid + 1)))) "_db_id"
      = some (.str (env.uuids (w.nextUuid + 1))) := by
    simpa [Json.set, pyGetJ] using pyGet_setKey k2 "_db_id" (.str (env.uuids (w.nextUuid + 1)))
  refine ⟨(Json.obj k1).set "_db_id" (.str (env.uuids w.nextUuid)),
          (Json.obj k2).set "_db_id" (.str (env.uuids (w.nextUuid + 1))),
          by rw [e1], ?_, g1, g2, ?_, ?_⟩
  · rw [e1, e2]
  · rw [g1, g2]
    intro hh
    exact hid (by simpa using hh)
  · rw [e1] at h2' ⊢
    rw [e2]
    simp

/-- Claim C5 witness: two identical successful parse requests against the empty
store produce `_db_id` values u0 and u1 and append two rows. -/
theorem C5_witness :
    ∃ b1 b2,
      (parse_policy envParseOk [("text", Json.str "p")] w0).1 = .ok b1
      ∧ (parse_policy envParseOk [("text", Json.str "p")]
           ((parse_policy envParseOk [("text", Json.str "p")] w0).2)).1 = .ok b2
      ∧ pyGetJ b1 "_db_id" = some (.str (envParseOk.uuids w0.nextUuid))
      ∧ pyGetJ b2 "_db_id" = some (.str (envParseOk.uuids (w0.nextUuid + 1)))
      ∧ pyGetJ b1 "_db_id" ≠ pyGetJ b2 "_db_id"
      ∧ ((parse_policy envParseOk [("text", Json.str "p")]
           ((parse_policy envParseOk [("text", Json.str "p")] w0).2)).2).policies
          = w0.policies
            ++ [policy_row envParseOk (envParseOk.uuids w0.nextUuid)
                  [("policy_number", .str "POL2"), ("premium_amount", .num 900)],
                policy_row envParseOk (envParseOk.uuids (w0.nextUuid + 1))
                  [("policy_number", .str "POL2"), ("premium_amount", .num 900)]] :=
  C5_no_dedup envParseOk [("text", Json.str "p")] w0
    [("policy_number", .str "POL2"), ("premium_amount", .num 900)]
    [("policy_number", .str "POL2"), ("premium_amount", .num 900)]
    rfl rfl rfl (by decide)

/-- Claim C10: a successful parse stores `raw_parse` equal to the extracted
object P (without any `_db_id` key — the generated id is attached to the
response only after persistence), and when the record of P is the first stored
match for its policy_number, `get_policy_by_number` returns exactly P. -/
theorem C10_roundtrip (env : Env) (body : List (String × Json)) (w : World)
    (kvs : List (String × Json)) (pv : Json)
    (ht : (parse_text body).truthy = true)
    (h1 : modelJson (env.oracle w.nextCall) = .ok (Json.obj kvs))
    (hpn : pyGet kvs "policy_number" = some pv)
    (hself : sqlEq (colOf (some pv)) (colOf (some pv)) = true)
    (hdb : ∀ r ∈ w.policies, sqlEq r.policy_number (colOf (some pv)) = false)
    (hnid : pyGet kvs "_db_id" = none) :
    ((parse_policy env body w).2).policies
        = w.policies ++ [policy_row env (env.uuids w.nextUuid) kvs]
      ∧ (policy_row env (env.uuids w.nextUuid) kvs).raw_parse = Json.obj kvs
      ∧ pyGetJ (policy_row env (env.uuids w.nextUuid) kvs).raw_parse "_db_id" = none
      ∧ get_policy_by_number ((parse_policy env body w).2).policies pv
          = some (Json.obj kvs)
      ∧ (parse_policy env body w).1
          = .ok ((Json.obj kvs).set "_db_id" (.str (env.uuids w.nextUuid))) := by
  have e1 := parse_policy_success env body w kvs ht h1
  refine ⟨by rw [e1], rfl, ?_, ?_, by rw [e1]⟩
  · simpa [policy_row, pyGetJ] using hnid
  · rw [e1]
    show get_policy_by_number
        (w.policies ++ [policy_row env (env.uuids w.nextUuid) kvs]) pv
      = some (Json.obj kvs)
    unfold get_policy_by_number
    rw [find_app_of_none _ _ _ hdb]
    simp [List.find?, policy_row, hpn, hself]

/-- Claim C10 witness: the round trip evaluated for a parsed object with policy
number POL9 against the empty store. -/
theorem C10_witness :
    ((parse_policy envParse10 [("text", Json.str "doc")] w0).2).policies
        = w0.policies
          ++ [policy_row envParse10 (envParse10.uuids w0.nextUuid)
                [("policy_number", .str "POL9"), ("customer_name", .str "A")]]
      ∧ (policy_row envParse10 (envParse10.uuids w0.nextUuid)
            [("policy_number", .str "POL9"), ("customer_name", .str "A")]).raw_parse
          = Json.obj [("policy_number", .str "POL9"), ("customer_name", .str "A")]
      ∧ pyGetJ (policy_row envParse10 (envParse10.uuids w0.nextUuid)
            [("policy_number", .str "POL9"), ("customer_name", .str "A")]).raw_parse
            "_db_id" = none
      ∧ get_policy_by_number
            ((parse_policy envParse10 [("text", Json.str "doc")] w0).2).policies
            (.str "POL9")
          = some (Json.obj [("policy_number", .str "POL9"), ("customer_name", .str "A")])
      ∧ (parse_policy envParse10 [("text", Json.str "doc")] w0).1
          = .ok ((Json.obj [("policy_number", .str "POL9"), ("customer_name", .str "A")]).set
                   "_db_id" (.str (envParse10.uuids w0.nextUuid))) :=
  C10_roundtrip envParse10 [("text", Json.str "doc")] w0
    [("policy_number", .str "POL9"), ("customer_name", .str "A")] (.str "POL9")
    rfl rfl rfl rfl (by intro r hr; exact absurd hr (List.not_mem_nil r)) rfl

/-! Claim C8. -/

theorem DbExt_refl (w : World) : DbExt w w :=
  ⟨⟨[], by simp⟩, ⟨[], by simp⟩⟩

theorem DbExt_trans {w1 w2 w3 : World} (a : DbExt w1 w2) (b : DbExt w2 w3) :
    DbExt w1 w3 := by
  obtain ⟨⟨s1, hs1⟩, ⟨t1, ht1⟩⟩ := a
  obtain ⟨⟨s2, hs2⟩, ⟨t2, ht2⟩⟩ := b
  exact ⟨⟨s1 ++ s2, by rw [hs2, hs1, List.append_assoc]⟩,
         ⟨t1 ++ t2, by rw [ht2, ht1, List.append_assoc]⟩⟩

theorem dbExt_of_eq {w w' : World} (h1 : w'.policies = w.policies)
    (h2 : w'.conversations = w.conversations) : DbExt w w' :=
  ⟨⟨[], by rw [h1]; simp⟩, ⟨[], by rw [h2]; simp⟩⟩

theorem DbExt_take {w w' : World} (h : DbExt w w') :
    w'.policies.take w.policies.length = w.policies
      ∧ w'.conversations.take w.conversations.length = w.conversations := by
  obtain ⟨⟨s, hs⟩, ⟨t, ht⟩⟩ := h
  exact ⟨by rw [hs]; exact take_app_len _ _, by rw [ht]; exact take_app_len _ _⟩

theorem dbExt_call (env : Env) (w : World) (sys : String) (u : Json) (m : Nat) :
    DbExt w ((call_llm env w sys u m).2) :=
  dbExt_of_eq rfl rfl

theorem dbExt_log (env : Env) (w : World) (s : Json) (r : String) (m : Json) :
    DbExt w (log_conversation env w s r m) :=
  ⟨⟨[], by simp [log_conversation]⟩,
   ⟨[⟨env.uuids w.nextUuid, s, r, m, env.now⟩], rfl⟩⟩

theorem dbExt_parse_store (env : Env) (w : World) (p : Json) :
    DbExt w ((parse_store env w p).2) := by
  cases p with
  | obj kvs =>
      exact ⟨⟨[policy_row env (env.uuids w.nextUuid) kvs], rfl⟩, ⟨[], by simp [parse_store, save_policy]⟩⟩
  | null => exact DbExt_refl w
  | bool b => exact DbExt_refl w
  | num q => exact DbExt_refl w
  | str s => exact DbExt_refl w
  | arr xs => exact DbExt_refl w

theorem payment_post_world (env : Env) (w : World) (policy : Option Json) (aj j : Json)
    (w' : World) (h : payment_post env w policy aj = .ok (j, w')) :
    w'.policies = w.policies ∧ w'.conversations = w.conversations
      ∧ w'.calls = w.calls ∧ w'.nextCall = w.nextCall := by
  unfold payment_post at h
  repeat' split at h
  all_goals first
    | exact Except.noConfusion h
    | (injection h with h'; injection h' with h1 h2; subst h2; exact ⟨rfl, rfl, rfl, rfl⟩)

theorem session_init_world (env : Env) (w : World) (sid : Option Json) :
    ((session_init env w sid).2).policies = w.policies
      ∧ ((session_init env w sid).2).conversations = w.conversations
      ∧ ((session_init env w sid).2).calls = w.calls
      ∧ ((session_init env w sid).2).nextCall = w.nextCall := by
  rcases sid with _ | v
  · exact ⟨rfl, rfl, rfl, rfl⟩
  · by_cases hv : v.truthy <;> simp [session_init, hv]

theorem agent_turn_dbExt (env : Env) (w : World) (s l u : Json) (pn : Option Json) :
    DbExt w ((agent_turn env w s l u pn).2) := by
  simp only [agent_turn]
  split
  · apply DbExt_trans (dbExt_log env w s "user" u)
    apply DbExt_trans (dbExt_call env _ SYSTEM_NLU_PROMPT u 200)
    apply DbExt_trans (dbExt_call env _ SYSTEM_SENTIMENT_PROMPT u 80)
    exact dbExt_call env _ _ _ _
  · rename_i aw hpp
    have hw := payment_post_world _ _ _ _ _ _ hpp
    refine DbExt_trans ?_ (dbExt_log env aw.2 s "agent" _)
    refine DbExt_trans ?_ (dbExt_of_eq hw.1 hw.2.1)
    apply DbExt_trans (dbExt_log env w s "user" u)
    apply DbExt_trans (dbExt_call env _ SYSTEM_NLU_PROMPT u 200)
    apply DbExt_trans (dbExt_call env _ SYSTEM_SENTIMENT_PROMPT u 80)
    exact dbExt_call env _ _ _ _

theorem parse_policy_dbExt (env : Env) (body : List (String × Json)) (w : World) :
    DbExt w ((parse_policy env body w).2) := by
  simp only [parse_policy]
  split
  · exact DbExt_refl w
  · split
    · apply DbExt_trans (dbExt_call env w SYSTEM_PARSER_PROMPT (parse_text body) 600)
      exact dbExt_parse_store env _ _
    · split
      · apply DbExt_trans (dbExt_call env w SYSTEM_PARSER_PROMPT (parse_text body) 600)
        apply DbExt_trans (dbExt_call env _ SYSTEM_PARSER_PROMPT _ 600)
        exact dbExt_parse_store env _ _
      · apply DbExt_trans (dbExt_call env w SYSTEM_PARSER_PROMPT (parse_text body) 600)
        exact dbExt_call env _ _ _ _

theorem nlu_intent_dbExt (env : Env) (body : List (String × Json)) (w : World) :
    DbExt w ((nlu_intent env body w).2) := by
  simp only [nlu_intent]
  split
  · exact DbExt_refl w
  · split
    · exact dbExt_call env _ _ _ _
    · exact dbExt_call env _ _ _ _

theorem nlu_sentiment_dbExt (env : Env) (body : List (String × Json)) (w : World) :
    DbExt w ((nlu_sentiment env body w).2) := by
  simp only [nlu_sentiment]
  split
  · exact DbExt_refl w
  · split
    · exact dbExt_call env _ _ _ _
    · exact dbExt_call env _ _ _ _

theorem agent_message_dbExt (env : Env) (body : List (String × Json)) (w : World) :
    DbExt w ((agent_message env body w).2) := by
  have hs := session_init_world env w (pyGet body "session_id")
  simp only [agent_message]
  split
  · exact dbExt_of_eq hs.1 hs.2.1
  · exact DbExt_trans (dbExt_of_eq hs.1 hs.2.1) (agent_turn_dbExt env _ _ _ _ _)

theorem payments_initiate_dbExt (env : Env) (body : List (String × Json)) (w : World) :
    DbExt w ((payments_initiate env body w).2) := by
  simp only [payments_initiate]
  split
  · exact DbExt_refl w
  · exact dbExt_of_eq rfl rfl

theorem notify_sms_dbExt (env : Env) (body : List (String × Json)) (w : World) :
    DbExt w ((notify_sms env body w).2) := by
  simp only [notify_sms]
  split
  · exact DbExt_refl w
  · exact dbExt_of_eq rfl rfl

/-- Claim C8: every endpoint of the service treats the two stored tables as
append-only: for all requests and states, the rows present before the request
are an unchanged initial segment of the rows present after it (no update, no
delete), for both PolicyRecords and ConversationTurns. -/
theorem C8_append_only (env : Env) (body : List (String × Json)) (w : World) :
    (((parse_policy env body w).2).policies.take w.policies.length = w.policies
      ∧ ((parse_policy env body w).2).conversations.take w.conversations.length
          = w.conversations)
    ∧ (((nlu_intent env body w).2).policies.take w.policies.length = w.policies
      ∧ ((nlu_intent env body w).2).conversations.take w.conversations.length
          = w.conversations)
    ∧ (((nlu_sentiment env body w).2).policies.take w.policies.length = w.policies
      ∧ ((nlu_sentiment env body w).2).conversations.take w.conversations.length
          = w.conversations)
    ∧ (((agent_message env body w).2).policies.take w.policies.length = w.policies
      ∧ ((agent_message env body w).2).conversations.take w.conversations.length
          = w.conversations)
    ∧ (((payments_initiate env body w).2).policies.take w.policies.length = w.policies
      ∧ ((payments_initiate env body w).2).conversations.take w.conversations.length
          = w.conversations)
    ∧ (((notify_sms env body w).2).policies.take w.policies.length = w.policies
      ∧ ((notify_sms env body w).2).conversations.take w.conversations.length
          = w.conversations)
    ∧ (((health env w).2).policies.take w.policies.length = w.policies
      ∧ ((health env w).2).conversations.take w.conversations.length
          = w.conversations) :=
  ⟨DbExt_take (parse_policy_dbExt env body w),
   DbExt_take (nlu_intent_dbExt env body w),
   DbExt_take (nlu_sentiment_dbExt env body w),
   DbExt_take (agent_message_dbExt env body w),
   DbExt_take (payments_initiate_dbExt env body w),
   DbExt_take (notify_sms_dbExt env body w),
   DbExt_take (DbExt_refl w)⟩

/-! Structural lemmas about the agent turn. -/

theorem agent_turn_shape (env : Env) (w : World) (s l u : Json) (pn : Option Json) :
    (agent_turn env w s l u pn).1.isOk = true
      ∨ (agent_turn env w s l u pn).1.isCrash = true := by
  simp only [agent_turn]
  split
  · right; rfl
  · left; rfl

theorem shape_not_clientError {r : HttpResponse}
    (h : r.isOk = true ∨ r.isCrash = true) : r.isClientError = false := by
  cases r <;> simp_all [HttpResponse.isOk, HttpResponse.isCrash, HttpResponse.isClientError]

theorem shape_not_serverError {r : HttpResponse}
    (h : r.isOk = true ∨ r.isCrash = true) : r.isServerError = false := by
  cases r <;> simp_all [HttpResponse.isOk, HttpResponse.isCrash, HttpResponse.isServerError]

theorem agent_turn_calls_prompt (env : Env) (w : World) (s l u : Json) (pn : Option Json) :
    ((agent_turn env w s l u pn).2).calls
      = w.calls ++ [⟨SYSTEM_NLU_PROMPT, u, 200⟩, ⟨SYSTEM_SENTIMENT_PROMPT, u, 80⟩,
                    ⟨SYSTEM_AGENT_POLICY,
                     .str (agent_user_prompt u (policy_ctx pn w.policies)
                        (resolveNlu (env.oracle w.nextCall))
                        (resolveSent (env.oracle (w.nextCall + 1))) l), 400⟩] := by
  simp only [agent_turn]
  split
  · simp [call_llm, log_conversation, List.append_assoc]
  · rename_i aw hpp
    have hw := payment_post_world _ _ _ _ _ _ hpp
    show (log_conversation env aw.2 s "agent" _).calls = _
    have hlog : (log_conversation env aw.2 s "agent"
        (match aw.1 with | .obj kvs => pyGetD kvs "reply" (.str "") | j => j)).calls
        = aw.2.calls := rfl
    rw [hlog, hw.2.2.1]
    simp [call_llm, log_conversation, List.append_assoc]

/-! Claim C9. -/

/-- Claim C9 counterexample: in the Dialogue Orchestrator the sentiment
invocation (the second model call of a turn) passes max_tokens = 80, not the
100 used by the sentiment endpoint. -/
theorem C9_counterexample :
    (((agent_message envDance [("message", Json.str "hi")] w0).2).calls.get? 1).map
        (fun c => (c.system, c.maxTokens))
      = some (SYSTEM_SENTIMENT_PROMPT, 80)
    ∧ (80 : Nat) ≠ 100 :=
  ⟨rfl, by decide⟩

/-- Claim C9 (amended): the three endpoint extractors pass 600/200/100 max
tokens (policy/intent/sentiment), and the orchestrator intent invocation
passes 200, but its sentiment invocation passes 80 (and the agent-decision
call 400). -/
theorem C9_token_budgets (env : Env) (body : List (String × Json)) (w : World) :
    ((((parse_policy env body w).2).calls.drop w.calls.length).all
        (fun c => c.maxTokens == 600) = true)
    ∧ ((((nlu_intent env body w).2).calls.drop w.calls.length).all
        (fun c => c.maxTokens == 200) = true)
    ∧ ((((nlu_sentiment env body w).2).calls.drop w.calls.length).all
        (fun c => c.maxTokens == 100) = true)
    ∧ ((((agent_message env body w).2).calls.drop w.calls.length).map
          (fun c => (c.system, c.maxTokens)) = []
       ∨ (((agent_message env body w).2).calls.drop w.calls.length).map
          (fun c => (c.system, c.maxTokens))
         = [(SYSTEM_NLU_PROMPT, 200), (SYSTEM_SENTIMENT_PROMPT, 80),
            (SYSTEM_AGENT_POLICY, 400)]) := by
  have hs := session_init_world env w (pyGet body "session_id")
  refine ⟨?_, ?_, ?_, ?_⟩
  · simp only [parse_policy]
    split
    · simp
    · split
      · rw [(parse_store_world env _ _).1]
        simp [call_llm, drop_app_len]
      · split
        · rw [(parse_store_world env _ _).1]
          simp only [call_llm, List.append_assoc]
          rw [drop_app_len]
          rfl
        · simp only [call_llm, List.append_assoc]
          rw [drop_app_len]
          rfl
  · simp only [nlu_intent]
    split
    · simp
    · split <;> (simp [call_llm, drop_app_len])
  · simp only [nlu_sentiment]
    split
    · simp
    · split <;> (simp [call_llm, drop_app_len])
  · simp only [agent_message]
    split
    · left
      rw [hs.2.2.1]
      simp
    · right
      rw [agent_turn_calls_prompt, hs.2.2.1]
      rw [drop_app_len]
      rfl

/-! Claims C1 and C2. -/

theorem payment_post_fallback (env : Env) (w : World) (policy : Option Json)
    (language : Json) (e : String) :
    payment_post env w policy (agentFallback language e)
      = .ok (agentFallback language e, w) := rfl

theorem agent_turn_fail (env : Env) (w : World) (s l u : Json) (pn : Option Json)
    (e : String) (hf : modelJson (env.oracle (w.nextCall + 2)) = .error e) :
    (agent_turn env w s l u pn).1 = .ok (agentFallback l e) := by
  have hf' : modelJson (env.oracle (w.nextCall + 1 + 1)) = .error e := hf
  simp only [agent_turn, call_llm, log_conversation, resolveAgent, hf',
             payment_post_fallback]

/-- Claim C1 counterexample: with a non-empty message, when the agent-decision
model call succeeds with the syntactically valid JSON object
`{"action": "dance"}`, the handler returns exactly that object: there is no
string `reply` key and the `action` value is outside the seven-value enum. -/
theorem C1_counterexample :
    (agent_message envDance [("message", Json.str "hi")] w0).1
        = .ok (.obj [("action", .str "dance")])
      ∧ pyGetJ (.obj [("action", .str "dance")]) "reply" = none
      ∧ ¬ "dance" ∈ actionEnum :=
  ⟨rfl, rfl, by decide⟩

/-- Claim C1 (amended): for a non-empty message, when the agent-decision model
call fails (exception or JSON-parse failure) the response is the fixed
fallback, which does carry a string `reply` and the enum action
`escalate_human`; when the call succeeds, the JSON object from the model is returned
verbatim without validation, so the reply/action guarantee holds only for the
failure fallback (and for model outputs that happen to obey the schema). -/
theorem C1_agent_fallback (env : Env) (body : List (String × Json)) (w : World)
    (e : String)
    (hmsg : (pyGetD body "message" (Json.str "")).truthy = true)
    (hf : modelJson (env.oracle (w.nextCall + 2)) = .error e) :
    ∃ b, (agent_message env body w).1 = .ok b
      ∧ pyGetJ b "reply"
          = some (.str "I\x27m sorry, I\x27m having trouble right now. I\x27ll escalate to a human agent.")
      ∧ pyGetJ b "action" = some (.str "escalate_human")
      ∧ "escalate_human" ∈ actionEnum := by
  have hs := session_init_world env w (pyGet body "session_id")
  refine ⟨agentFallback (pyGetD body "language" (.str "en")) e, ?_, rfl, rfl, by decide⟩
  simp only [agent_message, hmsg, Bool.not_true, Bool.false_eq_true, if_false]
  apply agent_turn_fail
  rw [hs.2.2.2]
  exact hf

/-- Claim C1 witness: the fallback guarantee evaluated at a raising
agent-decision call. -/
theorem C1_witness :
    ∃ b, (agent_message envAgentFail [("message", Json.str "hi")] w0).1 = .ok b
      ∧ pyGetJ b "reply"
          = some (.str "I\x27m sorry, I\x27m having trouble right now. I\x27ll escalate to a human agent.")
      ∧ pyGetJ b "action" = some (.str "escalate_human")
      ∧ "escalate_human" ∈ actionEnum :=
  C1_agent_fallback envAgentFail [("message", Json.str "hi")] w0 "boom" rfl rfl

/-- Claim C2 counterexample: with a non-empty message, when the agent-decision
model call succeeds with valid JSON that is not an object (here the number 5),
the handler raises an uncaught AttributeError at `agent_json.get("action")`
and fails outward, although no model sub-call failed. -/
theorem C2_counterexample :
    (agent_message envNum [("message", Json.str "hi")] w0).1
        = .crash "AttributeError: get"
      ∧ (Json.str "hi").truthy = true
      ∧ (envNum.oracle 2).isFailure = false :=
  ⟨rfl, rfl, rfl⟩

/-- Claim C2 (amended): the handler returns HTTP 400 exactly when `message` is
absent, empty or otherwise falsy; for a truthy message it never returns an
explicit error response — every model sub-call exception is absorbed (in
particular an agent-decision failure still yields a 200) — but a successful
agent-decision parse producing a non-object value raises an uncaught
exception. -/
theorem C2_validation_and_absorption (env : Env) (body : List (String × Json))
    (w : World) :
    (((agent_message env body w).1.isClientError = true)
        ↔ (pyGetD body "message" (Json.str "")).truthy = false)
    ∧ ((pyGetD body "message" (Json.str "")).truthy = true →
        (agent_message env body w).1.isOk = true
          ∨ (agent_message env body w).1.isCrash = true)
    ∧ ((pyGetD body "message" (Json.str "")).truthy = true →
        (agent_message env body w).1.isServerError = false)
    ∧ ((pyGetD body "message" (Json.str "")).truthy = true →
        (env.oracle (w.nextCall + 2)).isFailure = true →
        (agent_message env body w).1.isOk = true) := by
  have hs := session_init_world env w (pyGet body "session_id")
  refine ⟨?_, ?_, ?_, ?_⟩
  · cases hm : (pyGetD body "message" (Json.str "")).truthy
    · simp [agent_message, hm, HttpResponse.isClientError]
    · simp only [agent_message, hm, Bool.not_true, Bool.false_eq_true, if_false]
      simp [shape_not_clientError (agent_turn_shape env _ _ _ _ _)]
  · intro hm
    simp only [agent_message, hm, Bool.not_true, Bool.false_eq_true, if_false]
    exact agent_turn_shape env _ _ _ _ _
  · intro hm
    simp only [agent_message, hm, Bool.not_true, Bool.false_eq_true, if_false]
    exact shape_not_serverError (agent_turn_shape env _ _ _ _ _)
  · intro hm hfail
    simp only [agent_message, hm, Bool.not_true, Bool.false_eq_true, if_false]
    rcases he : modelJson (env.oracle (w.nextCall + 2)) with e | j
    · have hf2 : modelJson (env.oracle
          ((session_init env w (pyGet body "session_id")).2.nextCall + 2))
          = .error e := by rw [hs.2.2.2]; exact he
      rw [agent_turn_fail env _ _ _ _ _ e hf2]
      rfl
    · simp [ModelOut.isFailure, he] at hfail

/-- Claim C2 witness: a non-empty message with an unparseable agent decision
still yields a success response. -/
theorem C2_witness :
    (agent_message envAgentFail2 [("message", Json.str "x")] w0).1.isOk = true :=
  (C2_validation_and_absorption envAgentFail2 [("message", Json.str "x")] w0).2.2.2 rfl rfl

/-! Claim C6. -/

/-- Claim C6: a failing intent sub-call is substituted by exactly
`{intent: "out_of_scope", confidence: 0.5, entities: {}}` and a failing
sentiment sub-call by exactly `{sentiment: "neutral", score: 0.5}`, and in
either case the turn still proceeds to the agent-decision invocation, whose
prompt embeds precisely those substituted values. -/
theorem C6_default_substitution (env : Env) (body : List (String × Json)) (w : World)
    (hmsg : (pyGetD body "message" (Json.str "")).truthy = true) :
    ((env.oracle w.nextCall).isFailure = true →
        resolveNlu (env.oracle w.nextCall) = nluDefault)
    ∧ ((env.oracle (w.nextCall + 1)).isFailure = true →
        resolveSent (env.oracle (w.nextCall + 1)) = sentDefault)
    ∧ ((agent_message env body w).2).calls
        = w.calls ++ [⟨SYSTEM_NLU_PROMPT, pyGetD body "message" (Json.str ""), 200⟩,
                      ⟨SYSTEM_SENTIMENT_PROMPT, pyGetD body "message" (Json.str ""), 80⟩,
                      ⟨SYSTEM_AGENT_POLICY,
                       .str (agent_user_prompt (pyGetD body "message" (Json.str ""))
                          (policy_ctx (pyGet body "policy_number") w.policies)
                          (resolveNlu (env.oracle w.nextCall))
                          (resolveSent (env.oracle (w.nextCall + 1)))
                          (pyGetD body "language" (Json.str "en"))), 400⟩] := by
  have hs := session_init_world env w (pyGet body "session_id")
  refine ⟨?_, ?_, ?_⟩
  · intro hfail
    rcases he : modelJson (env.oracle w.nextCall) with e | j
    · simp [resolveNlu, he]
    · simp [ModelOut.isFailure, he] at hfail
  · intro hfail
    rcases he : modelJson (env.oracle (w.nextCall + 1)) with e | j
    · simp [resolveSent, he]
    · simp [ModelOut.isFailure, he] at hfail
  · simp only [agent_message, hmsg, Bool.not_true, Bool.false_eq_true, if_false]
    rw [agent_turn_calls_prompt, hs.2.2.1, hs.2.2.2, hs.1]

/-- Claim C6 witness: both classification sub-calls raising, the defaults are
substituted and the agent-decision invocation is still made with them in its
prompt. -/
theorem C6_witness :
    resolveNlu (envC6.oracle w0.nextCall) = nluDefault
    ∧ resolveSent (envC6.oracle (w0.nextCall + 1)) = sentDefault
    ∧ ((agent_message envC6 [("message", Json.str "hello")] w0).2).calls
        = w0.calls
          ++ [⟨SYSTEM_NLU_PROMPT,
               pyGetD [("message", Json.str "hello")] "message" (Json.str ""), 200⟩,
              ⟨SYSTEM_SENTIMENT_PROMPT,
               pyGetD [("message", Json.str "hello")] "message" (Json.str ""), 80⟩,
              ⟨SYSTEM_AGENT_POLICY,
               .str (agent_user_prompt
                  (pyGetD [("message", Json.str "hello")] "message" (Json.str ""))
                  (policy_ctx (pyGet [("message", Json.str "hello")] "policy_number")
                    w0.policies)
                  (resolveNlu (envC6.oracle w0.nextCall))
                  (resolveSent (envC6.oracle (w0.nextCall + 1)))
                  (pyGetD [("message", Json.str "hello")] "language" (Json.str "en"))),
               400⟩] :=
  ⟨(C6_default_substitution envC6 [("message", Json.str "hello")] w0 rfl).1 rfl,
   (C6_default_substitution envC6 [("message", Json.str "hello")] w0 rfl).2.1 rfl,
   (C6_default_substitution envC6 [("message", Json.str "hello")] w0 rfl).2.2⟩

/-! Claim C4. -/

theorem payment_amount_eq (policy : Option Json) (pkvs : List (String × Json))
    (hsafe : policySafe policy = true) :
    payment_amount policy pkvs
      = .ok (if optTruthy (pyGet pkvs "amount") then pyGet pkvs "amount"
             else premium_fallback policy) := by
  rcases policy with _ | p
  · by_cases ha : optTruthy (pyGet pkvs "amount") <;>
      simp [payment_amount, premium_fallback, ha]
  · cases p with
    | obj pk =>
        by_cases ha : optTruthy (pyGet pkvs "amount") <;>
          by_cases ht : (Json.obj pk).truthy <;>
            simp [payment_amount, premium_fallback, ha, ht]
    | null =>
        by_cases ha : optTruthy (pyGet pkvs "amount") <;>
          simp [payment_amount, premium_fallback, ha, Json.truthy]
    | bool b =>
        have hb : b = false := by
          simpa [policySafe, Json.isObj, Json.truthy] using hsafe
        subst hb
        by_cases ha : optTruthy (pyGet pkvs "amount") <;>
          simp [payment_amount, premium_fallback, ha, Json.truthy]
    | num q =>
        have hq : q = 0 := by
          simpa [policySafe, Json.isObj, Json.truthy] using hsafe
        subst hq
        by_cases ha : optTruthy (pyGet pkvs "amount") <;>
          simp [payment_amount, premium_fallback, ha, Json.truthy]
    | str st =>
        have hst : st.isEmpty = true := by
          simpa [policySafe, Json.isObj, Json.truthy] using hsafe
        by_cases ha : optTruthy (pyGet pkvs "amount") <;>
          simp [payment_amount, premium_fallback, ha, Json.truthy, hst]
    | arr xs =>
        have hxs : xs.isEmpty = true := by
          simpa [policySafe, Json.isObj, Json.truthy] using hsafe
        by_cases ha : optTruthy (pyGet pkvs "amount") <;>
          simp [payment_amount, premium_fallback, ha, Json.truthy, hxs]

theorem payment_post_pay (env : Env) (w : World) (policy : Option Json)
    (kvs pkvs : List (String × Json))
    (hact : isStrEq (pyGet kvs "action") "initiate_payment" = true)
    (hpl : pyOr (pyGet kvs "action_payload") (.obj []) = Json.obj pkvs)
    (hsafe : policySafe policy = true) :
    payment_post env w policy (Json.obj kvs)
      = .ok ((Json.obj kvs).set "action_payload"
               (.obj [("payment_id", .str ("pay_" ++ (env.uuids w.nextUuid).take 8)),
                      ("payment_link", .str ("https://mockpay.example/pay/"
                          ++ ("pay_" ++ (env.uuids w.nextUuid).take 8))),
                      ("amount", optToJson (if optTruthy (pyGet pkvs "amount")
                          then pyGet pkvs "amount" else premium_fallback policy))]),
             { w with nextUuid := w.nextUuid + 1 }) := by
  simp only [payment_post, hact, if_true, hpl, payment_amount_eq policy pkvs hsafe]

theorem agent_turn_payment (env : Env) (w : World) (s l u : Json) (pn : Option Json)
    (kvs pkvs : List (String × Json))
    (hagent : modelJson (env.oracle (w.nextCall + 2)) = .ok (Json.obj kvs))
    (hact : isStrEq (pyGet kvs "action") "initiate_payment" = true)
    (hpl : pyOr (pyGet kvs "action_payload") (.obj []) = Json.obj pkvs)
    (hsafe : policySafe (policy_ctx pn w.policies) = true) :
    ∃ pid, (agent_turn env w s l u pn).1
      = .ok ((Json.obj kvs).set "action_payload"
               (.obj [("payment_id", .str pid),
                      ("payment_link", .str ("https://mockpay.example/pay/" ++ pid)),
                      ("amount", optToJson (if optTruthy (pyGet pkvs "amount")
                          then pyGet pkvs "amount"
                          else premium_fallback (policy_ctx pn w.policies)))])) := by
  have hagent' : modelJson (env.oracle (w.nextCall + 1 + 1)) = .ok (Json.obj kvs) := hagent
  refine ⟨"pay_" ++ (env.uuids (w.nextUuid + 1)).take 8, ?_⟩
  simp only [agent_turn, call_llm, log_conversation, resolveAgent, hagent',
             payment_post_pay env _ _ kvs pkvs hact hpl hsafe]

/-- Claim C4 counterexample: the action payload carries `amount: 0` (present),
yet the amount in the synthesized payment record is the policy premium 500, because
the code tests truthiness (`payload.get("amount") or ...`), not presence. -/
theorem C4_counterexample :
    modelJson (envPay0.oracle 2)
        = .ok (.obj [("action", .str "initiate_payment"),
                     ("action_payload", .obj [("amount", .num 0)])])
      ∧ pyGetJ (okBody (agent_message envPay0
            [("message", .str "pay"), ("policy_number", .str "POL1")] wP1).1)
            "action_payload"
          = some (.obj [("payment_id", .str "pay_u2"),
                        ("payment_link", .str "https://mockpay.example/pay/pay_u2"),
                        ("amount", .num 500)])
      ∧ (500 : Rat) ≠ 0 :=
  ⟨rfl, rfl, by norm_num⟩

/-- Claim C4 (amended): when the resolved action is "initiate_payment" (and the
decision, its payload and any truthy policy context are objects, as in every
non-crashing run), action_payload is overwritten with exactly
{payment_id, payment_link, amount}, payment_link being
https://mockpay.example/pay/<payment_id>; amount equals the payload amount
when that value is truthy, else the premium_amount of the policy context when the
policy context is truthy, else null. -/
theorem C4_payment_overwrite (env : Env) (body : List (String × Json)) (w : World)
    (kvs pkvs : List (String × Json))
    (hmsg : (pyGetD body "message" (Json.str "")).truthy = true)
    (hagent : modelJson (env.oracle (w.nextCall + 2)) = .ok (Json.obj kvs))
    (hact : isStrEq (pyGet kvs "action") "initiate_payment" = true)
    (hpl : pyOr (pyGet kvs "action_payload") (.obj []) = Json.obj pkvs)
    (hsafe : policySafe (policy_ctx (pyGet body "policy_number") w.policies) = true) :
    ∃ pid, (agent_message env body w).1
      = .ok ((Json.obj kvs).set "action_payload"
               (.obj [("payment_id", .str pid),
                      ("payment_link", .str ("https://mockpay.example/pay/" ++ pid)),
                      ("amount", optToJson (if optTruthy (pyGet pkvs "amount")
                          then pyGet pkvs "amount"
                          else premium_fallback
                            (policy_ctx (pyGet body "policy_number") w.policies)))])) := by
  have hs := session_init_world env w (pyGet body "session_id")
  have h2 : modelJson (env.oracle
      (((session_init env w (pyGet body "session_id")).2).nextCall + 2))
      = .ok (Json.obj kvs) := by rw [hs.2.2.2]; exact hagent
  have h3 : policySafe (policy_ctx (pyGet body "policy_number")
      ((session_init env w (pyGet body "session_id")).2).policies) = true := by
    rw [hs.1]; exact hsafe
  obtain ⟨pid, hp⟩ := agent_turn_payment env _ _ _ _ _ kvs pkvs h2 hact hpl h3
  rw [hs.1] at hp
  refine ⟨pid, ?_⟩
  simp only [agent_message, hmsg, Bool.not_true, Bool.false_eq_true, if_false]
  exact hp

/-- Claim C4 witness: a truthy payload amount 750 and no policy context. -/
theorem C4_witness :
    ∃ pid, (agent_message envPay750 [("message", Json.str "pay")] w0).1
      = .ok ((Json.obj [("action", .str "initiate_payment"),
                        ("action_payload", .obj [("amount", .num 750)])]).set
               "action_payload"
               (.obj [("payment_id", .str pid),
                      ("payment_link", .str ("https://mockpay.example/pay/" ++ pid)),
                      ("amount", optToJson (if optTruthy
                          (pyGet [("amount", Json.num 750)] "amount")
                          then pyGet [("amount", Json.num 750)] "amount"
                          else premium_fallback
                            (policy_ctx (pyGet [("message", Json.str "pay")] "policy_number")
                              w0.policies)))])) :=
  C4_payment_overwrite envPay750 [("message", Json.str "pay")] w0
    [("action", .str "initiate_payment"), ("action_payload", .obj [("amount", .num 750)])]
    [("amount", .num 750)] rfl rfl rfl rfl rfl
